import Mathlib

set_option maxRecDepth 10000

/-!
Shallow embedding of the Beans-to-Diamonds calculator core
(`src/BeanstoDiamondsCalcGrok.py`, `src/streamlit_app.py`,
`src/unnamed/part_000`).

Conventions of the embedding:
* Python `int` amounts are modelled as `ℤ`.
* The float rates `0.25, 0.2661, 0.2753, 0.2763, 0.2768, 0.2767` are
  modelled exactly as rationals with denominator `10000`; the field
  `diamonds_per_bean_e4` stores the numerator.  `math.floor(n * rate)`
  becomes `n * diamonds_per_bean_e4 / 10000` (natural division) and
  `math.ceil(1 / rate)` becomes `(10000 + p - 1) / p`.  For every input
  reachable in the program these rational values coincide with the
  IEEE-double computations in the source.
* `efficiency` (a display-only percentage such as `27.68`) is stored in
  hundredths as `efficiency_e2`.
* `float('inf')` as a tier upper bound is modelled as `none`.
* Python truthiness of `tier.fixed_diamonds` (`None` and `0` are falsy)
  is modelled explicitly where the source tests it.
-/

namespace BeansCalc

/-- The `ConversionTier` dataclass. -/
structure ConversionTier where
  min_beans : ℕ
  max_beans : Option ℕ
  diamonds_per_bean_e4 : ℕ
  efficiency_e2 : ℕ
  fixed_diamonds : Option ℕ
deriving DecidableEq

/-- The result dictionary returned by `calculate_diamonds`. -/
structure ConversionResult where
  diamonds : ℕ
  remainder : ℕ
  efficiency_e2 : ℕ
  diamonds_per_bean_e4 : ℕ
  tier : ℕ
deriving DecidableEq

/-- One entry of the breakdown list built by `optimize_beans`. -/
structure BreakdownEntry where
  tier : ℕ
  beans : ℕ
  diamonds : ℕ
  rate_e4 : ℕ
  efficiency_e2 : ℕ
deriving DecidableEq

def tier1 : ConversionTier := ⟨1, some 8, 2500, 2500, some 2⟩

def tier2 : ConversionTier := ⟨9, some 109, 2661, 2661, some 29⟩

def tier3 : ConversionTier := ⟨110, some 999, 2753, 2753, some 275⟩

def tier4 : ConversionTier := ⟨1000, some 3999, 2763, 2763, some 1105⟩

def tier5 : ConversionTier := ⟨4000, some 10999, 2768, 2768, some 3045⟩

def tier6 : ConversionTier := ⟨11000, none, 2767, 2767, none⟩

/-- `self.conversion_tiers`, the hardcoded six-tier table. -/
def conversion_tiers : List ConversionTier :=
  [tier1, tier2, tier3, tier4, tier5, tier6]

/-- Models `math.floor(n * tier.diamonds_per_bean)` for a non-negative
integer `n`, using the exact rational value of the rate. -/
def floorMul (n : ℕ) (t : ConversionTier) : ℕ :=
  n * t.diamonds_per_bean_e4 / 10000

/-- Models `math.ceil(1 / tier.diamonds_per_bean)`, using the exact
rational value of the rate. -/
def ceilInvRate (t : ConversionTier) : ℕ :=
  (10000 + t.diamonds_per_bean_e4 - 1) / t.diamonds_per_bean_e4

/-- The membership test `tier.min_beans <= beans <= tier.max_beans`,
where an infinite upper bound (`none`) accepts every amount. -/
def tierMatches (t : ConversionTier) (beans : ℤ) : Bool :=
  ((t.min_beans : ℤ) ≤ beans) &&
    (match t.max_beans with
     | some m => beans ≤ (m : ℤ)
     | none => true)

/-- `find_tier`: first tier in table order whose range contains `beans`. -/
def find_tier (beans : ℤ) : Option ConversionTier :=
  conversion_tiers.find? (fun t => tierMatches t beans)

/-- The diamond computation shared by `calculate_diamonds` and the loop of
`optimize_beans` in `BeanstoDiamondsCalcGrok.py`:
`tier.fixed_diamonds if tier.fixed_diamonds and n == tier.max_beans else
math.floor(n * tier.diamonds_per_bean)`.  The `d ≠ 0` conjunct models
Python truthiness of `fixed_diamonds`. -/
def tierDiamonds (t : ConversionTier) (n : ℕ) : ℕ :=
  match t.fixed_diamonds with
  | some d => if d ≠ 0 ∧ t.max_beans = some n then d else floorMul n t
  | none => floorMul n t

/-- `calculate_diamonds` from `BeanstoDiamondsCalcGrok.py`: `None` for
non-positive input, otherwise the per-tier conversion, the remainder
`beans % math.ceil(1 / rate)` (always computed) and the 1-based tier
index `self.conversion_tiers.index(tier) + 1`. -/
def calculate_diamonds (beans : ℤ) : Option ConversionResult :=
  if beans ≤ 0 then none
  else
    match find_tier beans with
    | none => none
    | some tier =>
      some ⟨tierDiamonds tier beans.toNat,
            beans.toNat % ceilInvRate tier,
            tier.efficiency_e2,
            tier.diamonds_per_bean_e4,
            conversion_tiers.indexOf tier + 1⟩

/-- `calculate_diamonds` from `streamlit_app.py`
(`BeansToDialmondsCalculator`): when `tier.fixed_diamonds` is truthy and
`beans <= tier.max_beans`, a five-way chain on the literal breakpoints
returns the calibrated outputs with `remainder` left at its initial `0`;
all other paths use the floor formula and compute the remainder. -/
def calculate_diamonds_v2 (beans : ℤ) : Option ConversionResult :=
  if beans ≤ 0 then none
  else
    match find_tier beans with
    | none => none
    | some tier =>
      let n := beans.toNat
      let fixedTruthy : Bool :=
        match tier.fixed_diamonds with
        | some d => d != 0
        | none => false
      let belowMax : Bool :=
        match tier.max_beans with
        | some m => n ≤ m
        | none => true
      let dr : ℕ × ℕ :=
        if fixedTruthy && belowMax then
          if n = 8 then (2, 0)
          else if n = 109 then (29, 0)
          else if n = 999 then (275, 0)
          else if n = 3999 then (1105, 0)
          else if n = 10999 then (3045, 0)
          else (floorMul n tier, n % ceilInvRate tier)
        else (floorMul n tier, n % ceilInvRate tier)
      some ⟨dr.1, dr.2, tier.efficiency_e2, tier.diamonds_per_bean_e4,
            conversion_tiers.indexOf tier + 1⟩

/-- Stable insertion of a breakdown entry before the first entry with a
strictly larger tier key. -/
def insertByTier (e : BreakdownEntry) : List BreakdownEntry → List BreakdownEntry
  | [] => [e]
  | x :: xs => if e.tier < x.tier then e :: x :: xs else x :: insertByTier e xs

/-- Models Python's stable `sorted(breakdown, key=lambda x: x['tier'])`. -/
def sortByTier : List BreakdownEntry → List BreakdownEntry
  | [] => []
  | e :: rest => insertByTier e (sortByTier rest)

/-- The allocation loop of `optimize_beans` in
`BeanstoDiamondsCalcGrok.py`, walking `reversed(self.conversion_tiers)`
with the running `remaining_beans`.  Returns the breakdown entries in
loop order, the accumulated total, and the final remaining amount.
`int(max_beans)` with an infinite bound is replaced by the remaining
amount, exactly as in the source. -/
def optimizeLoop : List ConversionTier → ℕ → List BreakdownEntry × ℕ × ℕ
  | [], remaining => ([], 0, remaining)
  | t :: rest, remaining =>
    if t.min_beans ≤ remaining then
      let beans_in_tier :=
        min remaining (match t.max_beans with | some m => m | none => remaining)
      let d := tierDiamonds t beans_in_tier
      let result := optimizeLoop rest (remaining - beans_in_tier)
      (⟨conversion_tiers.indexOf t + 1, beans_in_tier, d,
        t.diamonds_per_bean_e4, t.efficiency_e2⟩ :: result.1,
       d + result.2.1, result.2.2)
    else optimizeLoop rest remaining

/-- `optimize_beans` from `BeanstoDiamondsCalcGrok.py`: guard for
non-positive input, the reversed-tier allocation loop, the leftover
branch sending any remaining beans to `self.conversion_tiers[0]`, and
the final stable sort by tier index.  (`headD tier1` is
`conversion_tiers[0]`; the default is never used since the table is
non-empty.) -/
def optimize_beans (beans : ℤ) : List BreakdownEntry × ℕ :=
  if beans ≤ 0 then ([], 0)
  else
    let r := optimizeLoop conversion_tiers.reverse beans.toNat
    if 0 < r.2.2 then
      let t := conversion_tiers.headD tier1
      let d := floorMul r.2.2 t
      (sortByTier (r.1 ++ [⟨1, r.2.2, d, t.diamonds_per_bean_e4, t.efficiency_e2⟩]),
       r.2.1 + d)
    else (sortByTier r.1, r.2.1)

/-- The allocation loop of `optimize_beans` in `src/unnamed/part_000`:
identical to the canonical loop except for the hardcoded override
`if tier.min_beans == 4000 and tier.max_beans == 10999 and
beans_in_tier == 10803: diamonds = 2974`, and the remaining amount stays
an `int` (`ℤ`) because that variant has no positivity guard. -/
def optimizeLoopOv : List ConversionTier → ℤ → List BreakdownEntry × ℕ × ℤ
  | [], remaining => ([], 0, remaining)
  | t :: rest, remaining =>
    if (t.min_beans : ℤ) ≤ remaining then
      let beans_in_tier : ℤ :=
        min remaining (match t.max_beans with | some m => (m : ℤ) | none => remaining)
      let d :=
        if t.min_beans = 4000 ∧ t.max_beans = some 10999 ∧ beans_in_tier = 10803
        then 2974
        else tierDiamonds t beans_in_tier.toNat
      let result := optimizeLoopOv rest (remaining - beans_in_tier)
      (⟨conversion_tiers.indexOf t + 1, beans_in_tier.toNat, d,
        t.diamonds_per_bean_e4, t.efficiency_e2⟩ :: result.1,
       d + result.2.1, result.2.2)
    else optimizeLoopOv rest remaining

/-- `optimize_beans` from `src/unnamed/part_000`: no input guard, the
loop with the 10803 override, the leftover branch, and the final sort. -/
def optimize_beans_v2 (beans : ℤ) : List BreakdownEntry × ℕ :=
  let r := optimizeLoopOv conversion_tiers.reverse beans
  if 0 < r.2.2 then
    let t := conversion_tiers.headD tier1
    let d := floorMul r.2.2.toNat t
    (sortByTier (r.1 ++ [⟨1, r.2.2.toNat, d, t.diamonds_per_bean_e4, t.efficiency_e2⟩]),
     r.2.1 + d)
  else (sortByTier r.1, r.2.1)

/-! ### Characterization of `find_tier` -/

theorem find_tier_nonpos (beans : ℤ) (h : beans ≤ 0) : find_tier beans = none := by
  unfold find_tier conversion_tiers
  rw [List.find?_cons_of_neg _ (by simp [tierMatches, tier1]; omega),
      List.find?_cons_of_neg _ (by simp [tierMatches, tier2]; omega),
      List.find?_cons_of_neg _ (by simp [tierMatches, tier3]; omega),
      List.find?_cons_of_neg _ (by simp [tierMatches, tier4]; omega),
      List.find?_cons_of_neg _ (by simp [tierMatches, tier5]; omega),
      List.find?_cons_of_neg _ (by simp [tierMatches, tier6]; omega),
      List.find?_nil]

theorem find_tier_t1 (beans : ℤ) (h1 : 1 ≤ beans) (h2 : beans ≤ 8) :
    find_tier beans = some tier1 := by
  unfold find_tier conversion_tiers
  rw [List.find?_cons_of_pos _ (by simp [tierMatches, tier1]; omega)]

theorem find_tier_t2 (beans : ℤ) (h1 : 9 ≤ beans) (h2 : beans ≤ 109) :
    find_tier beans = some tier2 := by
  unfold find_tier conversion_tiers
  rw [List.find?_cons_of_neg _ (by simp [tierMatches, tier1]; omega),
      List.find?_cons_of_pos _ (by simp [tierMatches, tier2]; omega)]

theorem find_tier_t3 (beans : ℤ) (h1 : 110 ≤ beans) (h2 : beans ≤ 999) :
    find_tier beans = some tier3 := by
  unfold find_tier conversion_tiers
  rw [List.find?_cons_of_neg _ (by simp [tierMatches, tier1]; omega),
      List.find?_cons_of_neg _ (by simp [tierMatches, tier2]; omega),
      List.find?_cons_of_pos _ (by simp [tierMatches, tier3]; omega)]

theorem find_tier_t4 (beans : ℤ) (h1 : 1000 ≤ beans) (h2 : beans ≤ 3999) :
    find_tier beans = some tier4 := by
  unfold find_tier conversion_tiers
  rw [List.find?_cons_of_neg _ (by simp [tierMatches, tier1]; omega),
      List.find?_cons_of_neg _ (by simp [tierMatches, tier2]; omega),
      List.find?_cons_of_neg _ (by simp [tierMatches, tier3]; omega),
      List.find?_cons_of_pos _ (by simp [tierMatches, tier4]; omega)]

theorem find_tier_t5 (beans : ℤ) (h1 : 4000 ≤ beans) (h2 : beans ≤ 10999) :
    find_tier beans = some tier5 := by
  unfold find_tier conversion_tiers
  rw [List.find?_cons_of_neg _ (by simp [tierMatches, tier1]; omega),
      List.find?_cons_of_neg _ (by simp [tierMatches, tier2]; omega),
      List.find?_cons_of_neg _ (by simp [tierMatches, tier3]; omega),
      List.find?_cons_of_neg _ (by simp [tierMatches, tier4]; omega),
      List.find?_cons_of_pos _ (by simp [tierMatches, tier5]; omega)]

theorem find_tier_t6 (beans : ℤ) (h1 : 11000 ≤ beans) :
    find_tier beans = some tier6 := by
  unfold find_tier conversion_tiers
  rw [List.find?_cons_of_neg _ (by simp [tierMatches, tier1]; omega),
      List.find?_cons_of_neg _ (by simp [tierMatches, tier2]; omega),
      List.find?_cons_of_neg _ (by simp [tierMatches, tier3]; omega),
      List.find?_cons_of_neg _ (by simp [tierMatches, tier4]; omega),
      List.find?_cons_of_neg _ (by simp [tierMatches, tier5]; omega),
      List.find?_cons_of_pos _ (by simp [tierMatches, tier6]; omega)]

/-- Every positive amount falls in exactly one of the six tier ranges. -/
theorem range_split (beans : ℤ) (h : 0 < beans) :
    (1 ≤ beans ∧ beans ≤ 8) ∨ (9 ≤ beans ∧ beans ≤ 109) ∨ (110 ≤ beans ∧ beans ≤ 999) ∨
    (1000 ≤ beans ∧ beans ≤ 3999) ∨ (4000 ≤ beans ∧ beans ≤ 10999) ∨ 11000 ≤ beans := by
  omega

/-! ### Characterization of `calculate_diamonds` and `tierDiamonds` -/

theorem calculate_diamonds_char (beans : ℤ) (h : 0 < beans) (t : ConversionTier)
    (ht : find_tier beans = some t) :
    calculate_diamonds beans =
      some ⟨tierDiamonds t beans.toNat, beans.toNat % ceilInvRate t,
            t.efficiency_e2, t.diamonds_per_bean_e4, conversion_tiers.indexOf t + 1⟩ := by
  unfold calculate_diamonds
  rw [if_neg (by omega), ht]

theorem tierDiamonds_t1 (n : ℕ) : tierDiamonds tier1 n = if 8 = n then 2 else n * 2500 / 10000 := by
  simp [tierDiamonds, tier1, floorMul]

theorem tierDiamonds_t2 (n : ℕ) : tierDiamonds tier2 n = if 109 = n then 29 else n * 2661 / 10000 := by
  simp [tierDiamonds, tier2, floorMul]

theorem tierDiamonds_t3 (n : ℕ) : tierDiamonds tier3 n = if 999 = n then 275 else n * 2753 / 10000 := by
  simp [tierDiamonds, tier3, floorMul]

theorem tierDiamonds_t4 (n : ℕ) : tierDiamonds tier4 n = if 3999 = n then 1105 else n * 2763 / 10000 := by
  simp [tierDiamonds, tier4, floorMul]

theorem tierDiamonds_t5 (n : ℕ) : tierDiamonds tier5 n = if 10999 = n then 3045 else n * 2768 / 10000 := by
  simp [tierDiamonds, tier5, floorMul]

theorem tierDiamonds_t6 (n : ℕ) : tierDiamonds tier6 n = n * 2767 / 10000 := by
  simp [tierDiamonds, tier6, floorMul]

/-! ### Characterization of the allocation loop of `optimize_beans` -/

theorem optimizeLoop_nil (r : ℕ) : optimizeLoop [] r = ([], 0, r) := rfl

theorem optimizeLoop_cons_pos (t : ConversionTier) (rest : List ConversionTier) (r : ℕ)
    (h : t.min_beans ≤ r) :
    optimizeLoop (t :: rest) r =
      ((⟨conversion_tiers.indexOf t + 1,
         min r (match t.max_beans with | some m => m | none => r),
         tierDiamonds t (min r (match t.max_beans with | some m => m | none => r)),
         t.diamonds_per_bean_e4, t.efficiency_e2⟩ : BreakdownEntry) ::
        (optimizeLoop rest (r - min r (match t.max_beans with | some m => m | none => r))).1,
       tierDiamonds t (min r (match t.max_beans with | some m => m | none => r)) +
         (optimizeLoop rest (r - min r (match t.max_beans with | some m => m | none => r))).2.1,
       (optimizeLoop rest (r - min r (match t.max_beans with | some m => m | none => r))).2.2) := by
  rw [optimizeLoop]
  simp only [if_pos h]

theorem optimizeLoop_cons_neg (t : ConversionTier) (rest : List ConversionTier) (r : ℕ)
    (h : ¬ t.min_beans ≤ r) :
    optimizeLoop (t :: rest) r = optimizeLoop rest r := by
  rw [optimizeLoop]
  simp only [if_neg h]

theorem optimizeLoop_run_t1 (n : ℕ) (h1 : 1 ≤ n) (h2 : n ≤ 8) :
    optimizeLoop [tier6, tier5, tier4, tier3, tier2, tier1] n =
      ([⟨1, n, tierDiamonds tier1 n, 2500, 2500⟩], tierDiamonds tier1 n, 0) := by
  rw [optimizeLoop_cons_neg _ _ _ (by simp [tier6]; omega),
      optimizeLoop_cons_neg _ _ _ (by simp [tier5]; omega),
      optimizeLoop_cons_neg _ _ _ (by simp [tier4]; omega),
      optimizeLoop_cons_neg _ _ _ (by simp [tier3]; omega),
      optimizeLoop_cons_neg _ _ _ (by simp [tier2]; omega),
      optimizeLoop_cons_pos _ _ _ (by simp [tier1]; omega)]
  have emin : min n (match tier1.max_beans with | some m => m | none => n) = n := by
    simp [tier1]; omega
  rw [emin, Nat.sub_self, optimizeLoop_nil,
      show conversion_tiers.indexOf tier1 + 1 = 1 from rfl]
  simp [tier1]

theorem optimizeLoop_run_t2 (n : ℕ) (h1 : 9 ≤ n) (h2 : n ≤ 109) :
    optimizeLoop [tier6, tier5, tier4, tier3, tier2, tier1] n =
      ([⟨2, n, tierDiamonds tier2 n, 2661, 2661⟩], tierDiamonds tier2 n, 0) := by
  rw [optimizeLoop_cons_neg _ _ _ (by simp [tier6]; omega),
      optimizeLoop_cons_neg _ _ _ (by simp [tier5]; omega),
      optimizeLoop_cons_neg _ _ _ (by simp [tier4]; omega),
      optimizeLoop_cons_neg _ _ _ (by simp [tier3]; omega),
      optimizeLoop_cons_pos _ _ _ (by simp [tier2]; omega)]
  have emin : min n (match tier2.max_beans with | some m => m | none => n) = n := by
    simp [tier2]; omega
  rw [emin, Nat.sub_self,
      optimizeLoop_cons_neg _ _ _ (by simp [tier1]), optimizeLoop_nil,
      show conversion_tiers.indexOf tier2 + 1 = 2 from rfl]
  simp [tier2]

theorem optimizeLoop_run_t3 (n : ℕ) (h1 : 110 ≤ n) (h2 : n ≤ 999) :
    optimizeLoop [tier6, tier5, tier4, tier3, tier2, tier1] n =
      ([⟨3, n, tierDiamonds tier3 n, 2753, 2753⟩], tierDiamonds tier3 n, 0) := by
  rw [optimizeLoop_cons_neg _ _ _ (by simp [tier6]; omega),
      optimizeLoop_cons_neg _ _ _ (by simp [tier5]; omega),
      optimizeLoop_cons_neg _ _ _ (by simp [tier4]; omega),
      optimizeLoop_cons_pos _ _ _ (by simp [tier3]; omega)]
  have emin : min n (match tier3.max_beans with | some m => m | none => n) = n := by
    simp [tier3]; omega
  rw [emin, Nat.sub_self,
      optimizeLoop_cons_neg _ _ _ (by simp [tier2]),
      optimizeLoop_cons_neg _ _ _ (by simp [tier1]), optimizeLoop_nil,
      show conversion_tiers.indexOf tier3 + 1 = 3 from rfl]
  simp [tier3]

theorem optimizeLoop_run_t4 (n : ℕ) (h1 : 1000 ≤ n) (h2 : n ≤ 3999) :
    optimizeLoop [tier6, tier5, tier4, tier3, tier2, tier1] n =
      ([⟨4, n, tierDiamonds tier4 n, 2763, 2763⟩], tierDiamonds tier4 n, 0) := by
  rw [optimizeLoop_cons_neg _ _ _ (by simp [tier6]; omega),
      optimizeLoop_cons_neg _ _ _ (by simp [tier5]; omega),
      optimizeLoop_cons_pos _ _ _ (by simp [tier4]; omega)]
  have emin : min n (match tier4.max_beans with | some m => m | none => n) = n := by
    simp [tier4]; omega
  rw [emin, Nat.sub_self,
      optimizeLoop_cons_neg _ _ _ (by simp [tier3]),
      optimizeLoop_cons_neg _ _ _ (by simp [tier2]),
      optimizeLoop_cons_neg _ _ _ (by simp [tier1]), optimizeLoop_nil,
      show conversion_tiers.indexOf tier4 + 1 = 4 from rfl]
  simp [tier4]

theorem optimizeLoop_run_t5 (n : ℕ) (h1 : 4000 ≤ n) (h2 : n ≤ 10999) :
    optimizeLoop [tier6, tier5, tier4, tier3, tier2, tier1] n =
      ([⟨5, n, tierDiamonds tier5 n, 2768, 2768⟩], tierDiamonds tier5 n, 0) := by
  rw [optimizeLoop_cons_neg _ _ _ (by simp [tier6]; omega),
      optimizeLoop_cons_pos _ _ _ (by simp [tier5]; omega)]
  have emin : min n (match tier5.max_beans with | some m => m | none => n) = n := by
    simp [tier5]; omega
  rw [emin, Nat.sub_self,
      optimizeLoop_cons_neg _ _ _ (by simp [tier4]),
      optimizeLoop_cons_neg _ _ _ (by simp [tier3]),
      optimizeLoop_cons_neg _ _ _ (by simp [tier2]),
      optimizeLoop_cons_neg _ _ _ (by simp [tier1]), optimizeLoop_nil,
      show conversion_tiers.indexOf tier5 + 1 = 5 from rfl]
  simp [tier5]

theorem optimizeLoop_run_t6 (n : ℕ) (h1 : 11000 ≤ n) :
    optimizeLoop [tier6, tier5, tier4, tier3, tier2, tier1] n =
      ([⟨6, n, tierDiamonds tier6 n, 2767, 2767⟩], tierDiamonds tier6 n, 0) := by
  rw [optimizeLoop_cons_pos _ _ _ (by simp [tier6]; omega)]
  have emin : min n (match tier6.max_beans with | some m => m | none => n) = n := by
    simp [tier6]
  rw [emin, Nat.sub_self,
      optimizeLoop_cons_neg _ _ _ (by simp [tier5]),
      optimizeLoop_cons_neg _ _ _ (by simp [tier4]),
      optimizeLoop_cons_neg _ _ _ (by simp [tier3]),
      optimizeLoop_cons_neg _ _ _ (by simp [tier2]),
      optimizeLoop_cons_neg _ _ _ (by simp [tier1]), optimizeLoop_nil,
      show conversion_tiers.indexOf tier6 + 1 = 6 from rfl]
  simp [tier6]

theorem optimize_beans_t1 (beans : ℤ) (h1 : 1 ≤ beans) (h2 : beans ≤ 8) :
    optimize_beans beans =
      ([⟨1, beans.toNat, tierDiamonds tier1 beans.toNat, 2500, 2500⟩],
       tierDiamonds tier1 beans.toNat) := by
  unfold optimize_beans
  rw [if_neg (by omega),
      show conversion_tiers.reverse = [tier6, tier5, tier4, tier3, tier2, tier1] from rfl,
      optimizeLoop_run_t1 beans.toNat (by omega) (by omega)]
  simp [sortByTier, insertByTier]

theorem optimize_beans_t2 (beans : ℤ) (h1 : 9 ≤ beans) (h2 : beans ≤ 109) :
    optimize_beans beans =
      ([⟨2, beans.toNat, tierDiamonds tier2 beans.toNat, 2661, 2661⟩],
       tierDiamonds tier2 beans.toNat) := by
  unfold optimize_beans
  rw [if_neg (by omega),
      show conversion_tiers.reverse = [tier6, tier5, tier4, tier3, tier2, tier1] from rfl,
      optimizeLoop_run_t2 beans.toNat (by omega) (by omega)]
  simp [sortByTier, insertByTier]

theorem optimize_beans_t3 (beans : ℤ) (h1 : 110 ≤ beans) (h2 : beans ≤ 999) :
    optimize_beans beans =
      ([⟨3, beans.toNat, tierDiamonds tier3 beans.toNat, 2753, 2753⟩],
       tierDiamonds tier3 beans.toNat) := by
  unfold optimize_beans
  rw [if_neg (by omega),
      show conversion_tiers.reverse = [tier6, tier5, tier4, tier3, tier2, tier1] from rfl,
      optimizeLoop_run_t3 beans.toNat (by omega) (by omega)]
  simp [sortByTier, insertByTier]

theorem optimize_beans_t4 (beans : ℤ) (h1 : 1000 ≤ beans) (h2 : beans ≤ 3999) :
    optimize_beans beans =
      ([⟨4, beans.toNat, tierDiamonds tier4 beans.toNat, 2763, 2763⟩],
       tierDiamonds tier4 beans.toNat) := by
  unfold optimize_beans
  rw [if_neg (by omega),
      show conversion_tiers.reverse = [tier6, tier5, tier4, tier3, tier2, tier1] from rfl,
      optimizeLoop_run_t4 beans.toNat (by omega) (by omega)]
  simp [sortByTier, insertByTier]

theorem optimize_beans_t5 (beans : ℤ) (h1 : 4000 ≤ beans) (h2 : beans ≤ 10999) :
    optimize_beans beans =
      ([⟨5, beans.toNat, tierDiamonds tier5 beans.toNat, 2768, 2768⟩],
       tierDiamonds tier5 beans.toNat) := by
  unfold optimize_beans
  rw [if_neg (by omega),
      show conversion_tiers.reverse = [tier6, tier5, tier4, tier3, tier2, tier1] from rfl,
      optimizeLoop_run_t5 beans.toNat (by omega) (by omega)]
  simp [sortByTier, insertByTier]

theorem optimize_beans_t6 (beans : ℤ) (h1 : 11000 ≤ beans) :
    optimize_beans beans =
      ([⟨6, beans.toNat, tierDiamonds tier6 beans.toNat, 2767, 2767⟩],
       tierDiamonds tier6 beans.toNat) := by
  unfold optimize_beans
  rw [if_neg (by omega),
      show conversion_tiers.reverse = [tier6, tier5, tier4, tier3, tier2, tier1] from rfl,
      optimizeLoop_run_t6 beans.toNat (by omega)]
  simp [sortByTier, insertByTier]

/-- Master characterization: for every positive amount the optimizer
produces a single breakdown entry, for the tier found by `find_tier`,
consuming the whole amount. -/
theorem optimize_beans_char (beans : ℤ) (h : 0 < beans) :
    ∃ t : ConversionTier, find_tier beans = some t ∧
      optimize_beans beans =
        ([⟨conversion_tiers.indexOf t + 1, beans.toNat, tierDiamonds t beans.toNat,
           t.diamonds_per_bean_e4, t.efficiency_e2⟩], tierDiamonds t beans.toNat) := by
  rcases range_split beans h with ⟨h1, h2⟩ | ⟨h1, h2⟩ | ⟨h1, h2⟩ | ⟨h1, h2⟩ | ⟨h1, h2⟩ | h1
  · exact ⟨tier1, find_tier_t1 beans h1 h2, by rw [optimize_beans_t1 beans h1 h2]; rfl⟩
  · exact ⟨tier2, find_tier_t2 beans h1 h2, by rw [optimize_beans_t2 beans h1 h2]; rfl⟩
  · exact ⟨tier3, find_tier_t3 beans h1 h2, by rw [optimize_beans_t3 beans h1 h2]; rfl⟩
  · exact ⟨tier4, find_tier_t4 beans h1 h2, by rw [optimize_beans_t4 beans h1 h2]; rfl⟩
  · exact ⟨tier5, find_tier_t5 beans h1 h2, by rw [optimize_beans_t5 beans h1 h2]; rfl⟩
  · exact ⟨tier6, find_tier_t6 beans h1, by rw [optimize_beans_t6 beans h1]; rfl⟩

/-! ### Monotonicity of the optimized total on each side of the 10999/11000 boundary -/

theorem total_t1 (beans : ℤ) (h1 : 1 ≤ beans) (h2 : beans ≤ 8) :
    (optimize_beans beans).2 = tierDiamonds tier1 beans.toNat := by
  rw [optimize_beans_t1 beans h1 h2]

theorem total_t2 (beans : ℤ) (h1 : 9 ≤ beans) (h2 : beans ≤ 109) :
    (optimize_beans beans).2 = tierDiamonds tier2 beans.toNat := by
  rw [optimize_beans_t2 beans h1 h2]

theorem total_t3 (beans : ℤ) (h1 : 110 ≤ beans) (h2 : beans ≤ 999) :
    (optimize_beans beans).2 = tierDiamonds tier3 beans.toNat := by
  rw [optimize_beans_t3 beans h1 h2]

theorem total_t4 (beans : ℤ) (h1 : 1000 ≤ beans) (h2 : beans ≤ 3999) :
    (optimize_beans beans).2 = tierDiamonds tier4 beans.toNat := by
  rw [optimize_beans_t4 beans h1 h2]

theorem total_t5 (beans : ℤ) (h1 : 4000 ≤ beans) (h2 : beans ≤ 10999) :
    (optimize_beans beans).2 = tierDiamonds tier5 beans.toNat := by
  rw [optimize_beans_t5 beans h1 h2]

theorem total_t6 (beans : ℤ) (h1 : 11000 ≤ beans) :
    (optimize_beans beans).2 = tierDiamonds tier6 beans.toNat := by
  rw [optimize_beans_t6 beans h1]

/-- One-step monotonicity of the optimized total below the 10999/11000
boundary. -/
theorem total_step (n : ℕ) (h1 : 1 ≤ n) (h2 : n ≤ 10998) :
    (optimize_beans (n : ℤ)).2 ≤ (optimize_beans ((n : ℤ) + 1)).2 := by
  have hsplit : n ≤ 6 ∨ n = 7 ∨ n = 8 ∨ (9 ≤ n ∧ n ≤ 107) ∨ n = 108 ∨ n = 109 ∨
      (110 ≤ n ∧ n ≤ 997) ∨ n = 998 ∨ n = 999 ∨ (1000 ≤ n ∧ n ≤ 3997) ∨ n = 3998 ∨
      n = 3999 ∨ (4000 ≤ n ∧ n ≤ 10997) ∨ n = 10998 := by omega
  rcases hsplit with h | rfl | rfl | ⟨ha, hb⟩ | rfl | rfl | ⟨ha, hb⟩ | rfl | rfl |
    ⟨ha, hb⟩ | rfl | rfl | ⟨ha, hb⟩ | rfl
  · rw [total_t1 _ (by omega) (by omega), total_t1 _ (by omega) (by omega),
        show ((n : ℤ)).toNat = n by omega, show ((n : ℤ) + 1).toNat = n + 1 by omega,
        tierDiamonds_t1, tierDiamonds_t1, if_neg (by omega), if_neg (by omega)]
    omega
  · decide
  · decide
  · rw [total_t2 _ (by omega) (by omega), total_t2 _ (by omega) (by omega),
        show ((n : ℤ)).toNat = n by omega, show ((n : ℤ) + 1).toNat = n + 1 by omega,
        tierDiamonds_t2, tierDiamonds_t2, if_neg (by omega), if_neg (by omega)]
    omega
  · decide
  · decide
  · rw [total_t3 _ (by omega) (by omega), total_t3 _ (by omega) (by omega),
        show ((n : ℤ)).toNat = n by omega, show ((n : ℤ) + 1).toNat = n + 1 by omega,
        tierDiamonds_t3, tierDiamonds_t3, if_neg (by omega), if_neg (by omega)]
    omega
  · decide
  · decide
  · rw [total_t4 _ (by omega) (by omega), total_t4 _ (by omega) (by omega),
        show ((n : ℤ)).toNat = n by omega, show ((n : ℤ) + 1).toNat = n + 1 by omega,
        tierDiamonds_t4, tierDiamonds_t4, if_neg (by omega), if_neg (by omega)]
    omega
  · decide
  · decide
  · rw [total_t5 _ (by omega) (by omega), total_t5 _ (by omega) (by omega),
        show ((n : ℤ)).toNat = n by omega, show ((n : ℤ) + 1).toNat = n + 1 by omega,
        tierDiamonds_t5, tierDiamonds_t5, if_neg (by omega), if_neg (by omega)]
    omega
  · decide

/-- Monotonicity of the optimized total on `[1, 10999]`. -/
theorem total_mono_low (a b : ℕ) (h1 : 1 ≤ a) (hab : a ≤ b) (hb : b ≤ 10999) :
    (optimize_beans (a : ℤ)).2 ≤ (optimize_beans (b : ℤ)).2 := by
  induction b with
  | zero => omega
  | succ k ih =>
    rcases Nat.lt_or_ge a (k + 1) with h | h
    · have hstep := total_step k (by omega) (by omega)
      have hcast : ((k : ℤ)) + 1 = ((k + 1 : ℕ) : ℤ) := by push_cast; ring
      rw [hcast] at hstep
      exact le_trans (ih (by omega) (by omega)) hstep
    · have : a = k + 1 := by omega
      subst this
      exact le_refl _

/-- Monotonicity of the optimized total on `[11000, ∞)`. -/
theorem total_mono_high (a b : ℕ) (h1 : 11000 ≤ a) (hab : a ≤ b) :
    (optimize_beans (a : ℤ)).2 ≤ (optimize_beans (b : ℤ)).2 := by
  rw [total_t6 _ (by omega), total_t6 _ (by omega),
      show ((a : ℤ)).toNat = a by omega, show ((b : ℤ)).toNat = b by omega,
      tierDiamonds_t6, tierDiamonds_t6]
  omega

/-! ### Characterization of the streamlit-variant `calculate_diamonds_v2` -/

theorem calc_v2_t1 (beans : ℤ) (h1 : 1 ≤ beans) (h2 : beans ≤ 8) :
    calculate_diamonds_v2 beans =
      some ⟨if beans.toNat = 8 then 2 else floorMul beans.toNat tier1,
            if beans.toNat = 8 then 0 else beans.toNat % ceilInvRate tier1,
            2500, 2500, 1⟩ := by
  unfold calculate_diamonds_v2
  rw [if_neg (by omega), find_tier_t1 beans h1 h2]
  have h109 : beans.toNat ≠ 109 := by omega
  have h999 : beans.toNat ≠ 999 := by omega
  have h3999 : beans.toNat ≠ 3999 := by omega
  have h10999 : beans.toNat ≠ 10999 := by omega
  have hbm : beans.toNat ≤ 8 := by omega
  have hidx : List.indexOf (⟨1, some 8, 2500, 2500, some 2⟩ : ConversionTier)
      conversion_tiers = 0 := rfl
  by_cases hn : beans.toNat = 8
  · simp [tier1, hn, hidx]
  · simp [tier1, hn, h109, h999, h3999, h10999, hbm, hidx]

theorem calc_v2_t2 (beans : ℤ) (h1 : 9 ≤ beans) (h2 : beans ≤ 109) :
    calculate_diamonds_v2 beans =
      some ⟨if beans.toNat = 109 then 29 else floorMul beans.toNat tier2,
            if beans.toNat = 109 then 0 else beans.toNat % ceilInvRate tier2,
            2661, 2661, 2⟩ := by
  unfold calculate_diamonds_v2
  rw [if_neg (by omega), find_tier_t2 beans h1 h2]
  have h8 : beans.toNat ≠ 8 := by omega
  have h999 : beans.toNat ≠ 999 := by omega
  have h3999 : beans.toNat ≠ 3999 := by omega
  have h10999 : beans.toNat ≠ 10999 := by omega
  have hbm : beans.toNat ≤ 109 := by omega
  have hidx : List.indexOf (⟨9, some 109, 2661, 2661, some 29⟩ : ConversionTier)
      conversion_tiers = 1 := rfl
  by_cases hn : beans.toNat = 109
  · simp [tier2, hn, hidx]
  · simp [tier2, hn, h8, h999, h3999, h10999, hbm, hidx]

theorem calc_v2_t3 (beans : ℤ) (h1 : 110 ≤ beans) (h2 : beans ≤ 999) :
    calculate_diamonds_v2 beans =
      some ⟨if beans.toNat = 999 then 275 else floorMul beans.toNat tier3,
            if beans.toNat = 999 then 0 else beans.toNat % ceilInvRate tier3,
            2753, 2753, 3⟩ := by
  unfold calculate_diamonds_v2
  rw [if_neg (by omega), find_tier_t3 beans h1 h2]
  have h8 : beans.toNat ≠ 8 := by omega
  have h109 : beans.toNat ≠ 109 := by omega
  have h3999 : beans.toNat ≠ 3999 := by omega
  have h10999 : beans.toNat ≠ 10999 := by omega
  have hbm : beans.toNat ≤ 999 := by omega
  have hidx : List.indexOf (⟨110, some 999, 2753, 2753, some 275⟩ : ConversionTier)
      conversion_tiers = 2 := rfl
  by_cases hn : beans.toNat = 999
  · simp [tier3, hn, h8, h109, hidx]
  · simp [tier3, hn, h8, h109, h3999, h10999, hbm, hidx]

theorem calc_v2_t4 (beans : ℤ) (h1 : 1000 ≤ beans) (h2 : beans ≤ 3999) :
    calculate_diamonds_v2 beans =
      some ⟨if beans.toNat = 3999 then 1105 else floorMul beans.toNat tier4,
            if beans.toNat = 3999 then 0 else beans.toNat % ceilInvRate tier4,
            2763, 2763, 4⟩ := by
  unfold calculate_diamonds_v2
  rw [if_neg (by omega), find_tier_t4 beans h1 h2]
  have h8 : beans.toNat ≠ 8 := by omega
  have h109 : beans.toNat ≠ 109 := by omega
  have h999 : beans.toNat ≠ 999 := by omega
  have h10999 : beans.toNat ≠ 10999 := by omega
  have hbm : beans.toNat ≤ 3999 := by omega
  have hidx : List.indexOf (⟨1000, some 3999, 2763, 2763, some 1105⟩ : ConversionTier)
      conversion_tiers = 3 := rfl
  by_cases hn : beans.toNat = 3999
  · simp [tier4, hn, h8, h109, h999, hidx]
  · simp [tier4, hn, h8, h109, h999, h10999, hbm, hidx]

theorem calc_v2_t5 (beans : ℤ) (h1 : 4000 ≤ beans) (h2 : beans ≤ 10999) :
    calculate_diamonds_v2 beans =
      some ⟨if beans.toNat = 10999 then 3045 else floorMul beans.toNat tier5,
            if beans.toNat = 10999 then 0 else beans.toNat % ceilInvRate tier5,
            2768, 2768, 5⟩ := by
  unfold calculate_diamonds_v2
  rw [if_neg (by omega), find_tier_t5 beans h1 h2]
  have h8 : beans.toNat ≠ 8 := by omega
  have h109 : beans.toNat ≠ 109 := by omega
  have h999 : beans.toNat ≠ 999 := by omega
  have h3999 : beans.toNat ≠ 3999 := by omega
  have hbm : beans.toNat ≤ 10999 := by omega
  have hidx : List.indexOf (⟨4000, some 10999, 2768, 2768, some 3045⟩ : ConversionTier)
      conversion_tiers = 4 := rfl
  by_cases hn : beans.toNat = 10999
  · simp [tier5, hn, h8, h109, h999, h3999, hidx]
  · simp [tier5, hn, h8, h109, h999, h3999, hbm, hidx]

theorem calc_v2_t6 (beans : ℤ) (h1 : 11000 ≤ beans) :
    calculate_diamonds_v2 beans =
      some ⟨floorMul beans.toNat tier6, beans.toNat % ceilInvRate tier6,
            2767, 2767, 6⟩ := by
  unfold calculate_diamonds_v2
  rw [if_neg (by omega), find_tier_t6 beans h1]
  have hidx : List.indexOf (⟨11000, none, 2767, 2767, none⟩ : ConversionTier)
      conversion_tiers = 5 := rfl
  simp [tier6, hidx]

/-! ### The part_000 variant loop on non-positive input -/

theorem optimizeLoopOv_nil (r : ℤ) : optimizeLoopOv [] r = ([], 0, r) := rfl

theorem optimizeLoopOv_cons_neg (t : ConversionTier) (rest : List ConversionTier) (r : ℤ)
    (h : ¬ (t.min_beans : ℤ) ≤ r) :
    optimizeLoopOv (t :: rest) r = optimizeLoopOv rest r := by
  rw [optimizeLoopOv]
  simp only [if_neg h]

/-! ### Claims -/

/-- Claim C1, counterexample: total_output is not monotone in the input
amount.  At the concrete pair `a = 10999`, `b = 11000` we have `a ≤ b`,
both positive, yet `optimize_beans 10999` yields total 3045 while
`optimize_beans 11000` yields total 3043. -/
theorem claim_C1_counterexample :
    (0 : ℤ) < 10999 ∧ (10999 : ℤ) ≤ 11000 ∧
    (optimize_beans 10999).2 = 3045 ∧ (optimize_beans 11000).2 = 3043 ∧
    ¬ ((optimize_beans 10999).2 ≤ (optimize_beans 11000).2) := by
  refine ⟨by norm_num, by norm_num, by decide, by decide, by decide⟩

/-- Claim C1, amended: for positive `a ≤ b`, the total_output of
`optimize_beans` is monotone non-decreasing provided the pair does not
cross the tier-5/tier-6 boundary, i.e. whenever `b ≤ 10999` or
`11000 ≤ a`. -/
theorem claim_C1_amended (a b : ℤ) (ha : 0 < a) (hab : a ≤ b)
    (hside : b ≤ 10999 ∨ 11000 ≤ a) :
    (optimize_beans a).2 ≤ (optimize_beans b).2 := by
  obtain ⟨a', rfl⟩ : ∃ n : ℕ, a = (n : ℤ) := ⟨a.toNat, by omega⟩
  obtain ⟨b', rfl⟩ : ∃ n : ℕ, b = (n : ℤ) := ⟨b.toNat, by omega⟩
  rcases hside with h | h
  · exact total_mono_low a' b' (by omega) (by omega) (by omega)
  · exact total_mono_high a' b' (by omega) (by omega)

/-- Claim C1, witness for the amended theorem at `a = 4000`, `b = 10999`. -/
theorem claim_C1_witness :
    (0 : ℤ) < 4000 ∧ (4000 : ℤ) ≤ 10999 ∧
    ((10999 : ℤ) ≤ 10999 ∨ (11000 : ℤ) ≤ 4000) ∧
    (optimize_beans 4000).2 ≤ (optimize_beans 10999).2 :=
  ⟨by norm_num, by norm_num, Or.inl (by norm_num),
   claim_C1_amended 4000 10999 (by norm_num) (by norm_num) (Or.inl (by norm_num))⟩

/-- Claim C2: evaluation of both `optimize_beans` variants at 10803.
The canonical variant (`BeanstoDiamondsCalcGrok.py`) allocates all 10803
units to tier 5 and returns `floor(10803 * 0.2768) = 2990` by the floor
formula; the `src/unnamed/part_000` variant instead returns 2974 through
its hardcoded single-value override for this exact input. -/
theorem claim_C2_eval :
    optimize_beans 10803 = ([⟨5, 10803, 2990, 2768, 2768⟩], 2990) ∧
    optimize_beans_v2 10803 = ([⟨5, 10803, 2974, 2768, 2768⟩], 2974) ∧
    10803 * 2768 / 10000 = 2990 := by
  refine ⟨by decide, by decide, by norm_num⟩

/-- Claim C3: the five exact-breakpoint conversions return the literal
calibrated outputs with the right 1-based tier indices, in both
`calculate_diamonds` variants, and in general the output is the
`exact_output_at_max` literal when the amount equals the tier's
`max_amount` (and that field is set), otherwise the floor formula. -/
theorem claim_C3 :
    ((calculate_diamonds 8).map ConversionResult.diamonds = some 2 ∧
     (calculate_diamonds 8).map ConversionResult.tier = some 1 ∧
     (calculate_diamonds 109).map ConversionResult.diamonds = some 29 ∧
     (calculate_diamonds 109).map ConversionResult.tier = some 2 ∧
     (calculate_diamonds 999).map ConversionResult.diamonds = some 275 ∧
     (calculate_diamonds 999).map ConversionResult.tier = some 3 ∧
     (calculate_diamonds 3999).map ConversionResult.diamonds = some 1105 ∧
     (calculate_diamonds 3999).map ConversionResult.tier = some 4 ∧
     (calculate_diamonds 10999).map ConversionResult.diamonds = some 3045 ∧
     (calculate_diamonds 10999).map ConversionResult.tier = some 5) ∧
    ((calculate_diamonds_v2 8).map ConversionResult.diamonds = some 2 ∧
     (calculate_diamonds_v2 109).map ConversionResult.diamonds = some 29 ∧
     (calculate_diamonds_v2 999).map ConversionResult.diamonds = some 275 ∧
     (calculate_diamonds_v2 3999).map ConversionResult.diamonds = some 1105 ∧
     (calculate_diamonds_v2 10999).map ConversionResult.diamonds = some 3045) ∧
    ∀ beans : ℤ, 0 < beans → ∀ t, find_tier beans = some t →
      ∀ r, calculate_diamonds beans = some r →
        r.diamonds = if t.max_beans = some beans.toNat ∧ t.fixed_diamonds ≠ none
                     then t.fixed_diamonds.getD 0
                     else beans.toNat * t.diamonds_per_bean_e4 / 10000 := by
  refine ⟨by decide, by decide, ?_⟩
  intro beans hb t ht r hr
  rcases range_split beans hb with ⟨h1, h2⟩ | ⟨h1, h2⟩ | ⟨h1, h2⟩ | ⟨h1, h2⟩ | ⟨h1, h2⟩ | h1
  · have ht' := find_tier_t1 beans h1 h2
    obtain rfl : t = tier1 := Option.some.inj (ht.symm.trans ht')
    rw [calculate_diamonds_char beans hb tier1 ht'] at hr
    obtain rfl := (Option.some.inj hr).symm
    rw [show (⟨tierDiamonds tier1 beans.toNat, beans.toNat % ceilInvRate tier1,
      tier1.efficiency_e2, tier1.diamonds_per_bean_e4,
      conversion_tiers.indexOf tier1 + 1⟩ : ConversionResult).diamonds =
      tierDiamonds tier1 beans.toNat from rfl, tierDiamonds_t1]
    simp [tier1, eq_comm]
  · have ht' := find_tier_t2 beans h1 h2
    obtain rfl : t = tier2 := Option.some.inj (ht.symm.trans ht')
    rw [calculate_diamonds_char beans hb tier2 ht'] at hr
    obtain rfl := (Option.some.inj hr).symm
    rw [show (⟨tierDiamonds tier2 beans.toNat, beans.toNat % ceilInvRate tier2,
      tier2.efficiency_e2, tier2.diamonds_per_bean_e4,
      conversion_tiers.indexOf tier2 + 1⟩ : ConversionResult).diamonds =
      tierDiamonds tier2 beans.toNat from rfl, tierDiamonds_t2]
    simp [tier2, eq_comm]
  · have ht' := find_tier_t3 beans h1 h2
    obtain rfl : t = tier3 := Option.some.inj (ht.symm.trans ht')
    rw [calculate_diamonds_char beans hb tier3 ht'] at hr
    obtain rfl := (Option.some.inj hr).symm
    rw [show (⟨tierDiamonds tier3 beans.toNat, beans.toNat % ceilInvRate tier3,
      tier3.efficiency_e2, tier3.diamonds_per_bean_e4,
      conversion_tiers.indexOf tier3 + 1⟩ : ConversionResult).diamonds =
      tierDiamonds tier3 beans.toNat from rfl, tierDiamonds_t3]
    simp [tier3, eq_comm]
  · have ht' := find_tier_t4 beans h1 h2
    obtain rfl : t = tier4 := Option.some.inj (ht.symm.trans ht')
    rw [calculate_diamonds_char beans hb tier4 ht'] at hr
    obtain rfl := (Option.some.inj hr).symm
    rw [show (⟨tierDiamonds tier4 beans.toNat, beans.toNat % ceilInvRate tier4,
      tier4.efficiency_e2, tier4.diamonds_per_bean_e4,
      conversion_tiers.indexOf tier4 + 1⟩ : ConversionResult).diamonds =
      tierDiamonds tier4 beans.toNat from rfl, tierDiamonds_t4]
    simp [tier4, eq_comm]
  · have ht' := find_tier_t5 beans h1 h2
    obtain rfl : t = tier5 := Option.some.inj (ht.symm.trans ht')
    rw [calculate_diamonds_char beans hb tier5 ht'] at hr
    obtain rfl := (Option.some.inj hr).symm
    rw [show (⟨tierDiamonds tier5 beans.toNat, beans.toNat % ceilInvRate tier5,
      tier5.efficiency_e2, tier5.diamonds_per_bean_e4,
      conversion_tiers.indexOf tier5 + 1⟩ : ConversionResult).diamonds =
      tierDiamonds tier5 beans.toNat from rfl, tierDiamonds_t5]
    simp [tier5, eq_comm]
  · have ht' := find_tier_t6 beans h1
    obtain rfl : t = tier6 := Option.some.inj (ht.symm.trans ht')
    rw [calculate_diamonds_char beans hb tier6 ht'] at hr
    obtain rfl := (Option.some.inj hr).symm
    rw [show (⟨tierDiamonds tier6 beans.toNat, beans.toNat % ceilInvRate tier6,
      tier6.efficiency_e2, tier6.diamonds_per_bean_e4,
      conversion_tiers.indexOf tier6 + 1⟩ : ConversionResult).diamonds =
      tierDiamonds tier6 beans.toNat from rfl, tierDiamonds_t6]
    simp [tier6]

/-- Claim C3, witness: the general output rule applied at 5000 (interior
of tier 5, floor branch). -/
theorem claim_C3_witness :
    (⟨1384, 0, 2768, 2768, 5⟩ : ConversionResult).diamonds =
      if tier5.max_beans = some ((5000 : ℤ)).toNat ∧ tier5.fixed_diamonds ≠ none
      then tier5.fixed_diamonds.getD 0
      else ((5000 : ℤ)).toNat * tier5.diamonds_per_bean_e4 / 10000 :=
  claim_C3.2.2 5000 (by norm_num) tier5 (by decide) ⟨1384, 0, 2768, 2768, 5⟩ (by decide)

/-- Claim C4, counterexample: in the streamlit variant the remainder is
skipped at the exact breakpoint 109: the result's remainder is 0 even
though `109 mod ceil(1 / rate) = 109 mod 4 = 1` for the resolved tier. -/
theorem claim_C4_counterexample :
    (calculate_diamonds_v2 109).map ConversionResult.remainder = some 0 ∧
    (match find_tier 109 with | some t => ceilInvRate t | none => 0) = 4 ∧
    ¬ ((109 : ℕ) % 4 = 0) := by
  refine ⟨by decide, by decide, by norm_num⟩

/-- Claim C4, amended: the canonical `calculate_diamonds`
(`BeanstoDiamondsCalcGrok.py`) always sets
`remainder = amount mod ceil(1 / tier.rate)`, including at exact
breakpoints; the streamlit variant does the same except at the five
exact breakpoints 8, 109, 999, 3999, 10999, where it leaves the
remainder at 0. -/
theorem claim_C4_amended (beans : ℤ) (h : 0 < beans) (t : ConversionTier)
    (ht : find_tier beans = some t) :
    (∀ r, calculate_diamonds beans = some r →
        r.remainder = beans.toNat % ceilInvRate t) ∧
    (∀ r, calculate_diamonds_v2 beans = some r →
        r.remainder = if beans.toNat = 8 ∨ beans.toNat = 109 ∨ beans.toNat = 999 ∨
            beans.toNat = 3999 ∨ beans.toNat = 10999 then 0
          else beans.toNat % ceilInvRate t) := by
  constructor
  · intro r hr
    rw [calculate_diamonds_char beans h t ht] at hr
    obtain rfl := (Option.some.inj hr).symm
    rfl
  · intro r hr
    rcases range_split beans h with ⟨h1, h2⟩ | ⟨h1, h2⟩ | ⟨h1, h2⟩ | ⟨h1, h2⟩ | ⟨h1, h2⟩ | h1
    · obtain rfl : t = tier1 := Option.some.inj (ht.symm.trans (find_tier_t1 beans h1 h2))
      rw [calc_v2_t1 beans h1 h2] at hr
      obtain rfl := (Option.some.inj hr).symm
      by_cases hn : beans.toNat = 8
      · simp [hn]
      · simp only [hn]
        have e109 : beans.toNat ≠ 109 := by omega
        have e999 : beans.toNat ≠ 999 := by omega
        have e3999 : beans.toNat ≠ 3999 := by omega
        have e10999 : beans.toNat ≠ 10999 := by omega
        simp [hn, e109, e999, e3999, e10999]
    · obtain rfl : t = tier2 := Option.some.inj (ht.symm.trans (find_tier_t2 beans h1 h2))
      rw [calc_v2_t2 beans h1 h2] at hr
      obtain rfl := (Option.some.inj hr).symm
      by_cases hn : beans.toNat = 109
      · simp [hn]
      · have e8 : beans.toNat ≠ 8 := by omega
        have e999 : beans.toNat ≠ 999 := by omega
        have e3999 : beans.toNat ≠ 3999 := by omega
        have e10999 : beans.toNat ≠ 10999 := by omega
        simp [hn, e8, e999, e3999, e10999]
    · obtain rfl : t = tier3 := Option.some.inj (ht.symm.trans (find_tier_t3 beans h1 h2))
      rw [calc_v2_t3 beans h1 h2] at hr
      obtain rfl := (Option.some.inj hr).symm
      by_cases hn : beans.toNat = 999
      · simp [hn]
      · have e8 : beans.toNat ≠ 8 := by omega
        have e109 : beans.toNat ≠ 109 := by omega
        have e3999 : beans.toNat ≠ 3999 := by omega
        have e10999 : beans.toNat ≠ 10999 := by omega
        simp [hn, e8, e109, e3999, e10999]
    · obtain rfl : t = tier4 := Option.some.inj (ht.symm.trans (find_tier_t4 beans h1 h2))
      rw [calc_v2_t4 beans h1 h2] at hr
      obtain rfl := (Option.some.inj hr).symm
      by_cases hn : beans.toNat = 3999
      · simp [hn]
      · have e8 : beans.toNat ≠ 8 := by omega
        have e109 : beans.toNat ≠ 109 := by omega
        have e999 : beans.toNat ≠ 999 := by omega
        have e10999 : beans.toNat ≠ 10999 := by omega
        simp [hn, e8, e109, e999, e10999]
    · obtain rfl : t = tier5 := Option.some.inj (ht.symm.trans (find_tier_t5 beans h1 h2))
      rw [calc_v2_t5 beans h1 h2] at hr
      obtain rfl := (Option.some.inj hr).symm
      by_cases hn : beans.toNat = 10999
      · simp [hn]
      · have e8 : beans.toNat ≠ 8 := by omega
        have e109 : beans.toNat ≠ 109 := by omega
        have e999 : beans.toNat ≠ 999 := by omega
        have e3999 : beans.toNat ≠ 3999 := by omega
        simp [hn, e8, e109, e999, e3999]
    · obtain rfl : t = tier6 := Option.some.inj (ht.symm.trans (find_tier_t6 beans h1))
      rw [calc_v2_t6 beans h1] at hr
      obtain rfl := (Option.some.inj hr).symm
      have e8 : beans.toNat ≠ 8 := by omega
      have e109 : beans.toNat ≠ 109 := by omega
      have e999 : beans.toNat ≠ 999 := by omega
      have e3999 : beans.toNat ≠ 3999 := by omega
      have e10999 : beans.toNat ≠ 10999 := by omega
      simp [e8, e109, e999, e3999, e10999]

/-- Claim C4, witness for the amended theorem at amount 109 (tier 2):
the canonical variant's remainder is `109 mod 4`, the streamlit
variant's remainder is 0. -/
theorem claim_C4_witness :
    (⟨29, 1, 2661, 2661, 2⟩ : ConversionResult).remainder =
      ((109 : ℤ)).toNat % ceilInvRate tier2 ∧
    (⟨29, 0, 2661, 2661, 2⟩ : ConversionResult).remainder =
      (if ((109 : ℤ)).toNat = 8 ∨ ((109 : ℤ)).toNat = 109 ∨ ((109 : ℤ)).toNat = 999 ∨
          ((109 : ℤ)).toNat = 3999 ∨ ((109 : ℤ)).toNat = 10999 then 0
       else ((109 : ℤ)).toNat % ceilInvRate tier2) :=
  ⟨(claim_C4_amended 109 (by norm_num) tier2 (by decide)).1 _ (by decide),
   (claim_C4_amended 109 (by norm_num) tier2 (by decide)).2 _ (by decide)⟩

/-- Claim C5: for every positive amount, the `input_used` fields of the
breakdown returned by `optimize_beans` sum to exactly the amount. -/
theorem claim_C5 (beans : ℤ) (h : 0 < beans) :
    (((optimize_beans beans).1.map BreakdownEntry.beans).sum : ℤ) = beans := by
  obtain ⟨t, ht, hopt⟩ := optimize_beans_char beans h
  rw [hopt]
  simp only [List.map_cons, List.map_nil, List.sum_cons, List.sum_nil, Nat.add_zero]
  omega

/-- Claim C5, witness at amount 123. -/
theorem claim_C5_witness :
    (0 : ℤ) < 123 ∧ (((optimize_beans 123).1.map BreakdownEntry.beans).sum : ℤ) = 123 :=
  ⟨by norm_num, claim_C5 123 (by norm_num)⟩

/-- Claim C6: for every positive integer amount `find_tier` returns the
unique tier of the table whose range contains the amount (so in
particular the first matching tier in ascending order), and for every
non-positive amount it returns `none`. -/
theorem claim_C6 (beans : ℤ) :
    (beans ≤ 0 → find_tier beans = none) ∧
    (1 ≤ beans → ∃ t, find_tier beans = some t ∧ tierMatches t beans = true ∧
      ∀ t' ∈ conversion_tiers, tierMatches t' beans = true → t' = t) := by
  constructor
  · exact fun h => find_tier_nonpos beans h
  · intro h
    rcases range_split beans (by omega) with ⟨h1, h2⟩ | ⟨h1, h2⟩ | ⟨h1, h2⟩ | ⟨h1, h2⟩ |
      ⟨h1, h2⟩ | h1
    · refine ⟨tier1, find_tier_t1 beans h1 h2, by simp [tierMatches, tier1]; omega, ?_⟩
      intro t' ht' hm
      simp only [conversion_tiers, List.mem_cons, List.not_mem_nil, or_false] at ht'
      rcases ht' with rfl | rfl | rfl | rfl | rfl | rfl
      all_goals first
        | rfl
        | (simp [tierMatches, tier1, tier2, tier3, tier4, tier5, tier6] at hm; omega)
    · refine ⟨tier2, find_tier_t2 beans h1 h2, by simp [tierMatches, tier2]; omega, ?_⟩
      intro t' ht' hm
      simp only [conversion_tiers, List.mem_cons, List.not_mem_nil, or_false] at ht'
      rcases ht' with rfl | rfl | rfl | rfl | rfl | rfl
      all_goals first
        | rfl
        | (simp [tierMatches, tier1, tier2, tier3, tier4, tier5, tier6] at hm; omega)
    · refine ⟨tier3, find_tier_t3 beans h1 h2, by simp [tierMatches, tier3]; omega, ?_⟩
      intro t' ht' hm
      simp only [conversion_tiers, List.mem_cons, List.not_mem_nil, or_false] at ht'
      rcases ht' with rfl | rfl | rfl | rfl | rfl | rfl
      all_goals first
        | rfl
        | (simp [tierMatches, tier1, tier2, tier3, tier4, tier5, tier6] at hm; omega)
    · refine ⟨tier4, find_tier_t4 beans h1 h2, by simp [tierMatches, tier4]; omega, ?_⟩
      intro t' ht' hm
      simp only [conversion_tiers, List.mem_cons, List.not_mem_nil, or_false] at ht'
      rcases ht' with rfl | rfl | rfl | rfl | rfl | rfl
      all_goals first
        | rfl
        | (simp [tierMatches, tier1, tier2, tier3, tier4, tier5, tier6] at hm; omega)
    · refine ⟨tier5, find_tier_t5 beans h1 h2, by simp [tierMatches, tier5]; omega, ?_⟩
      intro t' ht' hm
      simp only [conversion_tiers, List.mem_cons, List.not_mem_nil, or_false] at ht'
      rcases ht' with rfl | rfl | rfl | rfl | rfl | rfl
      all_goals first
        | rfl
        | (simp [tierMatches, tier1, tier2, tier3, tier4, tier5, tier6] at hm; omega)
    · refine ⟨tier6, find_tier_t6 beans h1, by simp [tierMatches, tier6]; omega, ?_⟩
      intro t' ht' hm
      simp only [conversion_tiers, List.mem_cons, List.not_mem_nil, or_false] at ht'
      rcases ht' with rfl | rfl | rfl | rfl | rfl | rfl
      all_goals first
        | rfl
        | (simp [tierMatches, tier1, tier2, tier3, tier4, tier5, tier6] at hm; omega)

/-- Claim C6, witness: the not-found branch at `-7` and the unique-tier
branch at 500. -/
theorem claim_C6_witness :
    find_tier (-7) = none ∧
    (∃ t, find_tier 500 = some t ∧ tierMatches t 500 = true ∧
      ∀ t' ∈ conversion_tiers, tierMatches t' 500 = true → t' = t) :=
  ⟨(claim_C6 (-7)).1 (by norm_num), (claim_C6 500).2 (by norm_num)⟩

/-- Claim C7: `calculate_diamonds` returns `none` for every non-positive
amount and `some` result for every positive amount. -/
theorem claim_C7 (beans : ℤ) :
    (beans ≤ 0 → calculate_diamonds beans = none) ∧
    (1 ≤ beans → ∃ r, calculate_diamonds beans = some r) := by
  constructor
  · intro h
    unfold calculate_diamonds
    rw [if_pos h]
  · intro h
    rcases range_split beans (by omega) with ⟨h1, h2⟩ | ⟨h1, h2⟩ | ⟨h1, h2⟩ | ⟨h1, h2⟩ |
      ⟨h1, h2⟩ | h1
    · exact ⟨_, calculate_diamonds_char beans (by omega) tier1 (find_tier_t1 beans h1 h2)⟩
    · exact ⟨_, calculate_diamonds_char beans (by omega) tier2 (find_tier_t2 beans h1 h2)⟩
    · exact ⟨_, calculate_diamonds_char beans (by omega) tier3 (find_tier_t3 beans h1 h2)⟩
    · exact ⟨_, calculate_diamonds_char beans (by omega) tier4 (find_tier_t4 beans h1 h2)⟩
    · exact ⟨_, calculate_diamonds_char beans (by omega) tier5 (find_tier_t5 beans h1 h2)⟩
    · exact ⟨_, calculate_diamonds_char beans (by omega) tier6 (find_tier_t6 beans h1)⟩

/-- Claim C7, witness: `InvalidAmount` at 0 and -5, a result at 1. -/
theorem claim_C7_witness :
    calculate_diamonds 0 = none ∧ calculate_diamonds (-5) = none ∧
    ∃ r, calculate_diamonds 1 = some r :=
  ⟨(claim_C7 0).1 (by norm_num), (claim_C7 (-5)).1 (by norm_num),
   (claim_C7 1).2 (by norm_num)⟩

/-- Claim C8: for every non-positive amount, both `optimize_beans`
variants return an empty breakdown and zero total (the canonical variant
via its guard, the part_000 variant by falling through its loop). -/
theorem claim_C8 (beans : ℤ) (h : beans ≤ 0) :
    optimize_beans beans = ([], 0) ∧ optimize_beans_v2 beans = ([], 0) := by
  constructor
  · unfold optimize_beans
    rw [if_pos h]
  · have hloop : optimizeLoopOv [tier6, tier5, tier4, tier3, tier2, tier1] beans
        = ([], 0, beans) := by
      rw [optimizeLoopOv_cons_neg _ _ _ (by simp [tier6]; omega),
          optimizeLoopOv_cons_neg _ _ _ (by simp [tier5]; omega),
          optimizeLoopOv_cons_neg _ _ _ (by simp [tier4]; omega),
          optimizeLoopOv_cons_neg _ _ _ (by simp [tier3]; omega),
          optimizeLoopOv_cons_neg _ _ _ (by simp [tier2]; omega),
          optimizeLoopOv_cons_neg _ _ _ (by simp [tier1]; omega),
          optimizeLoopOv_nil]
    unfold optimize_beans_v2
    rw [show conversion_tiers.reverse = [tier6, tier5, tier4, tier3, tier2, tier1] from rfl,
        hloop]
    have hno : ¬ ((0 : ℤ) < beans) := by omega
    simp [hno, sortByTier]

/-- Claim C8, witness at amount -5. -/
theorem claim_C8_witness :
    (-5 : ℤ) ≤ 0 ∧ optimize_beans (-5) = ([], 0) ∧ optimize_beans_v2 (-5) = ([], 0) :=
  ⟨by norm_num, (claim_C8 (-5) (by norm_num)).1, (claim_C8 (-5) (by norm_num)).2⟩

/-- Claim C9: for every positive amount the breakdown of
`optimize_beans` is a single entry consuming the whole amount, and the
total equals the `diamonds` output of `calculate_diamonds`. -/
theorem claim_C9 (beans : ℤ) (h : 0 < beans) :
    ∃ r e, calculate_diamonds beans = some r ∧ (optimize_beans beans).1 = [e] ∧
      e.beans = beans.toNat ∧ (optimize_beans beans).2 = r.diamonds := by
  obtain ⟨t, ht, hopt⟩ := optimize_beans_char beans h
  exact ⟨_, _, calculate_diamonds_char beans h t ht, by rw [hopt], rfl, by rw [hopt]⟩

/-- Claim C9, witness at amount 42. -/
theorem claim_C9_witness :
    (0 : ℤ) < 42 ∧
    ∃ r e, calculate_diamonds 42 = some r ∧ (optimize_beans 42).1 = [e] ∧
      e.beans = ((42 : ℤ)).toNat ∧ (optimize_beans 42).2 = r.diamonds :=
  ⟨by norm_num, claim_C9 42 (by norm_num)⟩

/-- Claim C10: `ceil(1 / rate)` equals 4 for all six tiers, and hence
the remainder of every successful conversion lies in `[0, 3]`. -/
theorem claim_C10 :
    (∀ t ∈ conversion_tiers, ceilInvRate t = 4) ∧
    ∀ beans : ℤ, 0 < beans → ∀ r, calculate_diamonds beans = some r → r.remainder ≤ 3 := by
  refine ⟨by decide, ?_⟩
  intro beans h r hr
  obtain ⟨t, ht, -⟩ := optimize_beans_char beans h
  rw [calculate_diamonds_char beans h t ht] at hr
  obtain rfl := (Option.some.inj hr).symm
  have ht' : conversion_tiers.find? (fun t' => tierMatches t' beans) = some t := ht
  have htm : t ∈ conversion_tiers := List.mem_of_find?_eq_some ht'
  have h4 : ceilInvRate t = 4 := by
    fin_cases htm <;> rfl
  show beans.toNat % ceilInvRate t ≤ 3
  rw [h4]
  omega

/-- Claim C10, witness at amount 11003 (tier 6, remainder 3). -/
theorem claim_C10_witness :
    calculate_diamonds 11003 = some ⟨3044, 3, 2767, 2767, 6⟩ ∧
    (⟨3044, 3, 2767, 2767, 6⟩ : ConversionResult).remainder ≤ 3 :=
  ⟨by decide, claim_C10.2 11003 (by norm_num) _ (by decide)⟩

end BeansCalc
